import Mathlib

/-!
Verification development for the agent-terminal repository.

The Python sources (`server.py`, `src/terminal.py`) and the client-side
JavaScript embedded in `server.py` are shallowly embedded below:

* Python `dict` objects (insertion ordered) become association lists with
  `dictSet` / `dictDel` / `dictGet` mirroring item assignment, `del` and
  `.get`.
* `await ws.send_json(...)` is modelled by an abstract send oracle
  `sendOk : Nat → Bool` over transport identifiers: `sendOk ws = true`
  means the send succeeds, `false` means it raises inside the `await`.
  Successful sends are collected as explicit delivery lists; a Python
  exception that escapes a function is an `Except.error`.
* Filesystem state is a list of existing paths (a set).
-/

namespace AgentTerminal

/-- Envelopes exchanged over a transport (the JSON messages of the wire
protocol, discriminated by their `type` field). -/
inductive Envelope where
  | broadcastMessage (sender message : String)
  | injectInput (data : String)
  | terminalStarted (sessionId agentType agentName cwd : String)
  | terminalOutput (data : String)
  | terminalClosed (exitCode : Option Int) (reads : Nat)
  | imageAdded (path filename agentType : String)
  | error (message : String)
  | pong
  deriving Repr, DecidableEq

/-! ### Python dict model (insertion-ordered association lists) -/

/-- `d[k] = v`: update in place when the key exists (keys are unique, so
updating the first occurrence suffices), else append. -/
def dictSet : List (String × α) → String → α → List (String × α)
  | [], k, v => [(k, v)]
  | p :: rest, k, v =>
    if p.1 = k then (k, v) :: rest else p :: dictSet rest k v

/-- `del d[k]` (total: removes nothing when absent). -/
def dictDel (d : List (String × α)) (k : String) : List (String × α) :=
  d.filter (fun p => p.1 ≠ k)

/-- `d.get(k)`. -/
def dictGet (d : List (String × α)) (k : String) : Option α :=
  (d.find? (fun p => p.1 = k)).map (fun p => p.2)

/-- `k in d`. -/
def dictHas (d : List (String × α)) (k : String) : Bool :=
  d.any (fun p => p.1 = k)

/-! ### Character-level string helpers

Python operates on code points; these helpers work on `String.data`
directly (they also evaluate by kernel reduction, which the byte-indexed
core `String` primitives do not). -/

/-- Python slicing `s[:n]`. -/
def pyTake (s : String) (n : Nat) : String :=
  ⟨s.data.take n⟩

/-- ASCII-relevant lower-casing, code point by code point. -/
def strToLower (s : String) : String :=
  ⟨s.data.map Char.toLower⟩

/-- `s.split(sep)` for a one-character separator (empty pieces kept). -/
def splitOnChar (sep : Char) : List Char → List (List Char)
  | [] => [[]]
  | c :: cs =>
    let r := splitOnChar sep cs
    if c = sep then [] :: r
    else
      match r with
      | [] => [[c]]
      | h :: t => (c :: h) :: t

def strSplitOnChar (sep : Char) (s : String) : List String :=
  (splitOnChar sep s.data).map (fun l => ⟨l⟩)

/-! ### `server.py` — `SessionManager` (the message bus) -/

/-- The metadata dict registered alongside a transport
(`{"name": ..., "type": ..., "role": ..., "index": ...}`); each field is
optional because the bus reads it with `.get`. -/
structure AgentInfo where
  name : Option String
  type : Option String
  role : Option String
  index : Option Int
  deriving Repr, DecidableEq

/-- `SessionManager` state: `self.sessions` (id → transport) and
`self.agent_info` (id → metadata).  Transports are abstract identifiers. -/
structure Manager where
  sessions : List (String × Nat)
  agent_info : List (String × AgentInfo)
  deriving Repr, DecidableEq

/-- Side effects an operation performs on the outside world. -/
inductive Effect where
  | close (ws : Nat)
  | send (sid : String) (ws : Nat) (e : Envelope)
  deriving Repr, DecidableEq

/-- `SessionManager.register`: stores the transport and metadata under
`session_id`.  The source performs no other action (in particular it never
closes a previously registered transport), hence the empty effect list. -/
def Manager.register (m : Manager) (session_id : String) (websocket : Nat)
    (info : AgentInfo) : Manager × List Effect :=
  ({ sessions := dictSet m.sessions session_id websocket,
     agent_info := dictSet m.agent_info session_id info }, [])

/-- `SessionManager.unregister`: removes both entries when present. -/
def Manager.unregister (m : Manager) (session_id : String) : Manager :=
  { sessions := dictDel m.sessions session_id,
    agent_info := dictDel m.agent_info session_id }

/-- `self.agent_info.get(sender_id, {}).get("name", "Unknown")` — the
sender-name lookup inside `broadcast`. -/
def Manager.senderName (m : Manager) (sender_id : String) : String :=
  match dictGet m.agent_info sender_id with
  | some info => info.name.getD "Unknown"
  | none => "Unknown"

/-- `self.agent_info.get(sender_id, {}).get("name", "Agent")` — the
sender-name lookup inside `send_direct` (note the different default from
`broadcast`). -/
def Manager.directSenderName (m : Manager) (sender_id : String) : String :=
  match dictGet m.agent_info sender_id with
  | some info => info.name.getD "Agent"
  | none => "Agent"

/-- `self.agent_info.get(sender_id, {}).get("role", "User")`. -/
def Manager.senderRole (m : Manager) (sender_id : String) : String :=
  match dictGet m.agent_info sender_id with
  | some info => info.role.getD "User"
  | none => "User"

/-- The `for sid, ws in self.sessions.items()` loop of `broadcast`: skip
the sender, try the send, swallow any failure (`except: pass`). -/
def broadcastLoop (entries : List (String × Nat)) (sender_id : String)
    (env : Envelope) (sendOk : Nat → Bool) : List Effect :=
  match entries with
  | [] => []
  | (sid, ws) :: rest =>
    if sid ≠ sender_id then
      if sendOk ws then
        Effect.send sid ws env :: broadcastLoop rest sender_id env sendOk
      else
        broadcastLoop rest sender_id env sendOk
    else
      broadcastLoop rest sender_id env sendOk

/-- `SessionManager.broadcast`: iterates `self.sessions.items()` directly,
sends a `broadcast_message` envelope to every id other than the sender,
ignores individual failures, and mutates nothing. -/
def Manager.broadcast (m : Manager) (sender_id : String) (message : String)
    (sendOk : Nat → Bool) : Manager × List Effect :=
  (m, broadcastLoop m.sessions sender_id
        (Envelope.broadcastMessage (m.senderName sender_id) message) sendOk)

/-- The `for sid, info in self.agent_info.items()` scan of `send_direct`:
first metadata entry whose `index` equals the target. -/
def findByIndex (entries : List (String × AgentInfo)) (target_index : Int) :
    Option String :=
  match entries with
  | [] => none
  | (sid, info) :: rest =>
    if info.index = some target_index then some sid
    else findByIndex rest target_index

/-- The formatted cross-session report `send_direct` builds (an f-string;
`context[:500]` is `String.take`). -/
def directMessage (senderName senderRole message context : String) : String :=
  "\n\x1b[38;5;75m╭──────────────────────────────────────────────╮\n│ 📨 MESSAGE from @"
    ++ senderName ++ " (" ++ senderRole
    ++ ")          │\n├──────────────────────────────────────────────┤\n│ "
    ++ message ++ "\n│ \n│ \x1b[90m[Context/Output Attached]\x1b[0m\n│ "
    ++ pyTake context 500
    ++ "... (truncated)\n╰──────────────────────────────────────────────╯\x1b[0m"

/-- `SessionManager.send_direct`: resolves the target id by index, and when
`target_sid` is truthy (non-empty) and registered, sends one
`inject_input` envelope.  The send is not guarded by `try`, so a failing
send raises out of the call (`Except.error`); the registry is never
mutated by this operation. -/
def Manager.send_direct (m : Manager) (target_index : Int) (sender_id : String)
    (message : String) (context : String) (sendOk : Nat → Bool) :
    Except Unit (Bool × List Effect) :=
  match findByIndex m.agent_info target_index with
  | none => Except.ok (false, [])
  | some target_sid =>
    -- `if target_sid and target_sid in self.sessions:`
    if target_sid ≠ "" ∧ dictHas m.sessions target_sid then
      match dictGet m.sessions target_sid with
      | some ws =>
        let env := Envelope.injectInput
          (directMessage (m.directSenderName sender_id)
            (m.senderRole sender_id) message context)
        if sendOk ws then Except.ok (true, [Effect.send target_sid ws env])
        else Except.error ()
      | none => Except.ok (false, [])
    else
      Except.ok (false, [])

/-! ### `src/terminal.py` — agent configuration tables -/

/-- One entry of `AGENT_CONFIGS` (fields not read by the embedded
operations — icon, prompt char, color, description — are omitted). -/
structure AgentConfig where
  name : String
  command : String
  session_cmd : Option String
  system_prompt_cmd : Option String
  add_image_cmd : Option String
  supports_image : Bool
  deriving Repr, DecidableEq

def claudeConfig : AgentConfig :=
  { name := "Claude", command := "claude --dangerously-skip-permissions",
    session_cmd := some "--session-id {session_id}",
    system_prompt_cmd := some "--append-system-prompt",
    add_image_cmd := some "add {path}", supports_image := true }

def geminiConfig : AgentConfig :=
  { name := "Gemini", command := "gemini --yolo", session_cmd := none,
    system_prompt_cmd := none, add_image_cmd := some "add {path}",
    supports_image := true }

def geminiThinkingConfig : AgentConfig :=
  { name := "Gemini (Thinking)",
    command := "gemini --yolo --model gemini-2.0-flash-thinking-exp",
    session_cmd := none, system_prompt_cmd := none,
    add_image_cmd := some "add {path}", supports_image := true }

def codexConfig : AgentConfig :=
  { name := "Codex", command := "codex", session_cmd := none,
    system_prompt_cmd := none, add_image_cmd := none, supports_image := false }

def opencodeConfig : AgentConfig :=
  { name := "OpenCode", command := "opencode", session_cmd := none,
    system_prompt_cmd := none, add_image_cmd := none, supports_image := false }

def shellConfig : AgentConfig :=
  { name := "Shell", command := "/bin/bash", session_cmd := none,
    system_prompt_cmd := none, add_image_cmd := none, supports_image := false }

def AGENT_CONFIGS : List (String × AgentConfig) :=
  [("claude", claudeConfig), ("gemini", geminiConfig),
   ("gemini-thinking", geminiThinkingConfig),
   ("codex", codexConfig), ("opencode", opencodeConfig),
   ("shell", shellConfig)]

/-- `ROLE_PROMPTS`: role tag → prompt text, `none` meaning Python `None`
("General" maps to `None`). -/
def ROLE_PROMPTS : List (String × Option String) :=
  [("PM", some "You are an expert Technical Project Manager.\nYour Goal: Break down vague requirements into clear, actionable technical tasks.\nRules:\n1. Do NOT write code implementation details.\n2. Focus on architecture, file structure, and step-by-step planning.\n3. Delegate implementation tasks to Developers."),
   ("Dev", some "You are a Senior Full-Stack Developer.\nYour Goal: Write clean, production-ready code based on instructions.\nRules:\n1. Focus on implementation. Write filenames and code blocks clearly.\n2. If specifications are missing, ask the PM.\n3. Keep explanations concise. Code is your language."),
   ("QA", some "You are a QA Lead and Security Specialist.\nYour Goal: Find bugs, security flaws, and logic errors.\nRules:\n1. Review code critically.\n2. Suggest test cases.\n3. Verify if the code meets requirements."),
   ("General", none)]

/-- `ROLE_PROMPTS.get(role)` (missing key and `None` value both give
`none`). -/
def rolePromptOf (role : String) : Option String :=
  (dictGet ROLE_PROMPTS role).join

/-- Python truthiness of an optional string: `None` and `""` are falsy. -/
def optTruthy : Option String → Bool
  | none => false
  | some s => s ≠ ""

/-! ### `TerminalSession._is_valid_uuid`

`re.match(r'^[0-9a-f]{8}-[0-9a-f]{4}-4[0-9a-f]{3}-[89ab][0-9a-f]{3}-[0-9a-f]{12}$', s, re.IGNORECASE)`.
Python's `$` (without `re.MULTILINE`) matches at the end of the string or
just before one newline at the end of the string, so the regex also
accepts a well-shaped UUID followed by a single trailing `'\n'`. -/

def isHexChar (c : Char) : Bool :=
  c.isDigit || ('a' ≤ c ∧ c ≤ 'f') || ('A' ≤ c ∧ c ≤ 'F')

/-- Whether the character at position `i` of a 36-character candidate is
admissible for the UUID-v4 pattern (case-insensitive). -/
def uuidCharOk (i : Nat) (c : Char) : Bool :=
  if i = 8 ∨ i = 13 ∨ i = 18 ∨ i = 23 then c = '-'
  else if i = 14 then c = '4'
  else if i = 19 then
    c = '8' ∨ c = '9' ∨ c = 'a' ∨ c = 'b' ∨ c = 'A' ∨ c = 'B'
  else isHexChar c

/-- The regex body (everything between `^` and `$`) as an exact-shape
check on a character list. -/
def uuidShape (cs : List Char) : Bool :=
  cs.length = 36 && (List.range 36).all (fun i => uuidCharOk i (cs.getD i ' '))

/-- `TerminalSession._is_valid_uuid`, with Python's `$` semantics: the
body must consume the whole string, or the whole string minus one
trailing newline. -/
def is_valid_uuid (s : String) : Bool :=
  if s.isEmpty then false
  else uuidShape s.data ||
    (s.data.getLast? = some '\n' && uuidShape s.data.dropLast)

/-- Strict UUID-v4 well-formedness — exactly the documented shape with no
trailing characters.  This is the meaning of "valid UUID v4" in the spec
and in the code's own docstring; it is compared against `is_valid_uuid`
(the code's actual check). -/
def uuidV4Strict (s : String) : Bool :=
  uuidShape s.data

/-! ### `TerminalSession.start` — command assembly -/

/-- `str.format(field=value)` for the single-field templates of the
config table: a character scanner that substitutes `value` for each
`\x7bfield\x7d` occurrence.  `acc` holds the (reversed) field name read
so far when inside a brace pair. -/
def formatAux (field value : List Char) :
    Option (List Char) → List Char → List Char
  | none, [] => []
  | some acc, [] => '{' :: acc.reverse
  | none, c :: cs =>
    if c = '{' then formatAux field value (some []) cs
    else c :: formatAux field value none cs
  | some acc, c :: cs =>
    if c = '}' then
      (if acc.reverse = field then value
       else '{' :: (acc.reverse ++ ['}'])) ++ formatAux field value none cs
    else formatAux field value (some (c :: acc)) cs

/-- `session_cmd.format(session_id=...)`. -/
def pyFormatSessionId (tmpl sid : String) : String :=
  ⟨formatAux "session_id".data sid.data none tmpl.data⟩

/-- `add_cmd.format(path=...)`. -/
def pyFormatPath (tmpl path : String) : String :=
  ⟨formatAux "path".data path.data none tmpl.data⟩

/-- `dangerous_chars = ['`', '$', '|', ';', '&', '>', '<', '\x00']`
(the backtick written via its code point). -/
def dangerousChars : List Char :=
  ['\x60', '$', '|', ';', '&', '>', '<', '\x00']

def containsDangerous (s : String) : Bool :=
  s.data.any (fun c => dangerousChars.contains c)

/-- `role_prompt.replace('"', '\\"').replace('\n', ' ').replace('\r', '')`. -/
def escapePromptChar (c : Char) : List Char :=
  if c = '"' then ['\\', '"']
  else if c = '\n' then [' ']
  else if c = '\r' then []
  else [c]

def escapePrompt (s : String) : String :=
  ⟨(s.data.map escapePromptChar).flatten⟩

/-- The command line `TerminalSession.start` assembles before spawning:
base command; resume flag iff `session_cmd` and `session_id` are truthy
and `_is_valid_uuid` accepts the id; persona flag iff
`system_prompt_cmd` and the role prompt are truthy and the prompt
contains no dangerous character. -/
def buildCmd (config : AgentConfig) (session_id : String)
    (role_prompt : Option String) : String :=
  let cmd := config.command
  let cmd :=
    if optTruthy config.session_cmd ∧ session_id ≠ "" ∧
        is_valid_uuid session_id then
      cmd ++ " " ++ pyFormatSessionId (config.session_cmd.getD "") session_id
    else cmd
  if optTruthy config.system_prompt_cmd ∧ optTruthy role_prompt then
    if containsDangerous (role_prompt.getD "") then cmd
    else
      cmd ++ " " ++ config.system_prompt_cmd.getD "" ++ " \""
        ++ escapePrompt (role_prompt.getD "") ++ "\""
  else cmd

/-! ### `TerminalSession` state -/

structure TermSession where
  session_id : String
  working_dir : String
  agent_type : String
  role : String
  config : AgentConfig
  pty : Option Nat          -- spawned process id, `none` when `self.pty is None`
  ptyAlive : Bool
  running : Bool            -- `self._running`
  hasReadTask : Bool        -- `self._read_task is not None`
  readCancelled : Bool
  temp_files : List String  -- `self._temp_files` (a set: deduplicated)
  deriving Repr, DecidableEq

/-- `TerminalSession.__init__` (the config lookup falls back to the
`"claude"` entry). -/
def TermSession.create (session_id working_dir agent_type role : String) :
    TermSession :=
  { session_id := session_id, working_dir := working_dir,
    agent_type := agent_type, role := role,
    config := (dictGet AGENT_CONFIGS agent_type).getD claudeConfig,
    pty := none, ptyAlive := false, running := false,
    hasReadTask := false, readCancelled := false, temp_files := [] }

structure StartResult where
  ok : Bool
  spawnedCmd : Option String
  session : TermSession
  envelopes : List Envelope
  deriving Repr, DecidableEq

/-- `TerminalSession.start`: assembles the command, spawns
(`spawnOk = false` models `PtyProcess.spawn` raising), and either sends
`terminal_started` or an error envelope.  `role_prompt` is
`ROLE_PROMPTS.get(self.role)`; the spawn-failure error text's exception
detail is elided. -/
def TermSession.start (s : TermSession) (role_prompt : Option String)
    (spawnOk : Bool) (pid : Nat) : StartResult :=
  let cmd := buildCmd s.config s.session_id role_prompt
  if spawnOk then
    { ok := true, spawnedCmd := some cmd,
      session := { s with pty := some pid, ptyAlive := true,
                          running := true, hasReadTask := true },
      envelopes := [Envelope.terminalStarted s.session_id s.agent_type
        s.config.name s.working_dir] }
  else
    { ok := false, spawnedCmd := none, session := s,
      envelopes := [Envelope.error ("Failed to start " ++ s.config.name)] }

/-! ### `TerminalSession.send_image` -/

/-- `pathlib.Path(filename).name` (both separators on Windows). -/
def pyBaseName (f : String) : String :=
  (strSplitOnChar '\\' ((strSplitOnChar '/' f).getLastD "")).getLastD ""

/-- `pathlib.Path(filename).suffix`: the part of the name from its last
dot, provided that dot is neither the first nor the last character. -/
def pySuffix (f : String) : String :=
  let name := pyBaseName f
  let parts := strSplitOnChar '.' name
  if 2 ≤ parts.length ∧ parts.getLastD "" ≠ "" ∧
      ¬(parts.length = 2 ∧ parts.headD "" = "") then
    "." ++ parts.getLastD ""
  else ""

def allowedExts : List String := [".png", ".jpg", ".jpeg", ".gif", ".webp"]

/-- `if "," in image_data: image_data = image_data.split(",")[1]` — the
data-URL prefix strip at the top of `send_image`. -/
def payloadBody (image_data : String) : String :=
  if image_data.data.contains ',' then
    (strSplitOnChar ',' image_data).getD 1 ""
  else image_data

structure ImageResult where
  session : TermSession
  fs : List String
  result : Option String     -- the Python return value (a path or `None`)
  envelopes : List Envelope
  written : List String      -- files opened for writing
  deriving Repr, DecidableEq

/-- `TerminalSession.send_image`.  Base64 decoding is abstracted by
`decode : String → Option Nat` returning the decoded byte count (`none`
for a `binascii` error from `b64decode(..., validate=True)`); the claims
depend only on sizes, and concrete multi-megabyte strings could not be
evaluated.  `unique_id` stands for `str(uuid.uuid4())[:8]` and
`temp_dir` for `tempfile.gettempdir()`.  Every validation failure sends
an error envelope and returns `none` (the Python `return None`). -/
def TermSession.send_image (s : TermSession) (fs : List String)
    (decode : String → Option Nat) (unique_id temp_dir : String)
    (image_data filename : String) : ImageResult :=
  if ¬ optTruthy s.config.add_image_cmd then
    { session := s, fs := fs, result := none,
      envelopes := [Envelope.error (s.config.name ++ " does not support images")],
      written := [] }
  else
    let data := payloadBody image_data
    if data.length > 70 * 1024 * 1024 then
      { session := s, fs := fs, result := none,
        envelopes := [Envelope.error "Image data too large (max ~50MB)"],
        written := [] }
    else
      match decode data with
      | none =>
        -- the source interpolates the decode exception into the message
        { session := s, fs := fs, result := none,
          envelopes := [Envelope.error "Invalid image data"], written := [] }
      | some nbytes =>
        if nbytes > 50 * 1024 * 1024 then
          { session := s, fs := fs, result := none,
            envelopes := [Envelope.error "Image too large (max 50MB)"],
            written := [] }
        else
          let ext0 := pySuffix filename
          let ext1 := if ext0 = "" then ".png" else ext0
          let ext := if allowedExts.contains (strToLower ext1) then ext1
            else ".png"
          let temp_path := temp_dir ++ "/ai_image_" ++ pyTake s.session_id 8
            ++ "_" ++ unique_id ++ ext
          let fs' := if fs.contains temp_path then fs else fs ++ [temp_path]
          let s' := { s with temp_files :=
            if s.temp_files.contains temp_path then s.temp_files
            else s.temp_files ++ [temp_path] }
          { session := s', fs := fs', result := some temp_path,
            envelopes := [Envelope.imageAdded temp_path filename s.agent_type],
            written := [temp_path] }

/-! ### `TerminalSession.stop` -/

structure StopResult where
  session : TermSession
  fs : List String
  deleted : List String      -- paths passed to `os.remove`
  envelopes : List Envelope
  deriving Repr, DecidableEq

/-- `TerminalSession.stop`: clears `_running`, cancels and awaits the read
task (the `CancelledError` is caught, and a cancelled read loop never
reaches its tail, so no envelope is emitted), force-kills the pty
(errors swallowed) and sets it to `None`, then copies `_temp_files`,
clears the set first, and best-effort removes each copied path. -/
def TermSession.stop (s : TermSession) (fs : List String) : StopResult :=
  let s1 : TermSession :=
    { s with running := false,
             readCancelled := s.readCancelled || s.hasReadTask,
             pty := none, ptyAlive := false }
  let copy := s1.temp_files
  let s2 := { s1 with temp_files := [] }
  { session := s2,
    fs := fs.filter (fun p => ¬ copy.contains p),
    deleted := copy.filter (fun p => fs.contains p),
    envelopes := [] }

/-! ### `handle_terminal_websocket` (sequential model) -/

/-- The JSON messages the handler's receive loop dispatches on; the loop
ends when the client disconnects or any exception escapes, after the
supplied list. -/
inductive ClientMsg where
  | input (data : String)
  | resize (rows cols : Int)
  | image (data filename : String)
  | ping
  | other (t : String)
  deriving Repr, DecidableEq

/-- One iteration of the handler's receive loop.  `input`/`resize`/`ping`
touch only the pty or the transport, not the modelled state. -/
def handlerStep (decode : String → Option Nat) (unique_id temp_dir : String)
    (acc : TermSession × List String) (msg : ClientMsg) :
    TermSession × List String :=
  match msg with
  | ClientMsg.image d f =>
    let r := acc.1.send_image acc.2 decode unique_id temp_dir d f
    (r.session, r.fs)
  | _ => acc

structure HandlerResult where
  sessions : List (String × TermSession)
  fs : List String
  finalSession : Option TermSession
  deriving Repr, DecidableEq

/-- `handle_terminal_websocket`: validates the agent type and role against
the tables, stops any existing session under the id, registers a fresh
session in `terminal_sessions`, starts it (returning early — with the
entry left in place — when start fails), runs the receive loop, and in
the `finally` block stops the session and deletes its id from the map. -/
def handle_terminal_websocket (sessions : List (String × TermSession))
    (fs : List String) (session_id working_dir agent_type role : String)
    (spawnOk : Bool) (pid : Nat) (decode : String → Option Nat)
    (unique_id temp_dir : String) (msgs : List ClientMsg) : HandlerResult :=
  let agent_type := if dictHas AGENT_CONFIGS agent_type then agent_type
    else "claude"
  let role := if dictHas ROLE_PROMPTS role then role else "General"
  let fs := match dictGet sessions session_id with
    | some old => (old.stop fs).fs
    | none => fs
  let s0 := TermSession.create session_id working_dir agent_type role
  let sessions := dictSet sessions session_id s0
  let st := s0.start (rolePromptOf role) spawnOk pid
  if ¬ st.ok then
    { sessions := sessions, fs := fs, finalSession := none }
  else
    let looped := msgs.foldl (handlerStep decode unique_id temp_dir)
      (st.session, fs)
    let r := looped.1.stop looped.2
    { sessions := dictDel sessions session_id, fs := r.fs,
      finalSession := some r.session }

/-! ### Client-side reconnection & conflict controller
(the JavaScript embedded in `server.py`, `connect()` and its
`ws.onmessage` / `ws.onclose` handlers) -/

/-- Scanner state for the escape-sequence strips: outside any candidate
match, just after an ESC, or inside a candidate's body (whose characters
are kept, reversed, in case the match never completes). -/
inductive StripMode where
  | plain
  | sawEsc
  | body (pend : List Char)

/-- Pass 1 of `stripAnsi`: global replace of `/\x1b\[[^a-zA-Z]*[a-zA-Z]/`
by the empty string, as a left-to-right scanner.  A match is ESC `[`, a
run of non-letters, then one ASCII letter; an ESC not followed by `[` is
kept (a second ESC restarts the candidate, as the regex retries from the
next position), and a candidate still open at the end of the text is
emitted unchanged — the required final letter never arrived, and since
its body contains no letter, no later candidate could complete either. -/
def stripCSIAux : StripMode → List Char → List Char
  | StripMode.plain, [] => []
  | StripMode.sawEsc, [] => ['\x1b']
  | StripMode.body pend, [] => '\x1b' :: '[' :: pend.reverse
  | StripMode.plain, c :: cs =>
    if c = '\x1b' then stripCSIAux StripMode.sawEsc cs
    else c :: stripCSIAux StripMode.plain cs
  | StripMode.sawEsc, c :: cs =>
    if c = '[' then stripCSIAux (StripMode.body []) cs
    else if c = '\x1b' then '\x1b' :: stripCSIAux StripMode.sawEsc cs
    else '\x1b' :: c :: stripCSIAux StripMode.plain cs
  | StripMode.body pend, c :: cs =>
    if c.isAlpha then stripCSIAux StripMode.plain cs
    else stripCSIAux (StripMode.body (c :: pend)) cs

def stripCSI (cs : List Char) : List Char :=
  stripCSIAux StripMode.plain cs

/-- Pass 2 of `stripAnsi`: global replace of `/\x1b\][^\x07]*\x07/` by
the empty string, scanning as in pass 1 with `]` as the introducer and
BEL as the (consumed) terminator. -/
def stripOSCAux : StripMode → List Char → List Char
  | StripMode.plain, [] => []
  | StripMode.sawEsc, [] => ['\x1b']
  | StripMode.body pend, [] => '\x1b' :: ']' :: pend.reverse
  | StripMode.plain, c :: cs =>
    if c = '\x1b' then stripOSCAux StripMode.sawEsc cs
    else c :: stripOSCAux StripMode.plain cs
  | StripMode.sawEsc, c :: cs =>
    if c = ']' then stripOSCAux (StripMode.body []) cs
    else if c = '\x1b' then '\x1b' :: stripOSCAux StripMode.sawEsc cs
    else '\x1b' :: c :: stripOSCAux StripMode.plain cs
  | StripMode.body pend, c :: cs =>
    if c = '\x07' then stripOSCAux StripMode.plain cs
    else stripOSCAux (StripMode.body (c :: pend)) cs

def stripOSC (cs : List Char) : List Char :=
  stripOSCAux StripMode.plain cs

/-- Pass 3 of `stripAnsi`: `/[\x00-\x1f]/g` replaced by a space. -/
def blankControl (cs : List Char) : List Char :=
  cs.map (fun c => if c ≤ '\x1f' then ' ' else c)

/-- The client's `stripAnsi` helper: the three global replaces applied in
source order. -/
def stripAnsi (s : String) : String :=
  ⟨blankControl (stripOSC (stripCSI s.data))⟩

/-- JavaScript `\s` restricted to the ASCII range (the phrase being
matched only ever involves ASCII). -/
def jsWhitespace (c : Char) : Bool :=
  c = ' ' ∨ c = '\t' ∨ c = '\n' ∨ c = '\x0b' ∨ c = '\x0c' ∨ c = '\r'

/-- Match a literal character list at the head of the input, returning
the remainder. -/
def matchLit : List Char → List Char → Option (List Char)
  | [], rest => some rest
  | _ :: _, [] => none
  | p :: ps, c :: cs => if c = p then matchLit ps cs else none

/-- Match `\s+` at the head of the input (maximal munch is sound here
because the following literal never starts with whitespace). -/
def matchWs1 : List Char → Option (List Char)
  | [] => none
  | c :: cs =>
    if jsWhitespace c then some (cs.dropWhile jsWhitespace) else none

/-- Match the body of `/already\s+in\s+use/` at the head of a
(lower-cased) character list. -/
def conflictAt (cs : List Char) : Bool :=
  (do
    let r1 ← matchLit "already".data cs
    let r2 ← matchWs1 r1
    let r3 ← matchLit "in".data r2
    let r4 ← matchWs1 r3
    let _ ← matchLit "use".data r4
    pure ()).isSome

def anySuffix (p : List Char → Bool) : List Char → Bool
  | [] => p []
  | c :: cs => p (c :: cs) || anySuffix p cs

/-- `conflictPattern.test(s)` for `/already\s+in\s+use/i`. -/
def conflictTest (s : String) : Bool :=
  anySuffix conflictAt (s.data.map Char.toLower)

/-- The client-side per-terminal state read and written by the
`terminal_output` branch of `ws.onmessage` and by `ws.onclose`. -/
structure ClientState where
  outputBuffer : String
  sessionId : String
  handlingSessionConflict : Bool
  oncloseAttached : Bool     -- `this.ws.onclose` not nulled out
  wsOpen : Bool
  disposed : Bool
  reconnectAttempts : Nat
  deriving Repr, DecidableEq

/-- Observable actions of the `terminal_output` handler. -/
inductive ClientEvent where
  | enqueued (data : String)        -- pushed onto `messageQueue`
  | conflictDetected
  | sessionRotated (newId : String) -- `this.sessionId = generateUUID()`
  | conflictReconnectScheduled      -- the 1.5 s `setTimeout(... connect ...)`
  deriving Repr, DecidableEq

/-- The rolling-buffer update: `this.outputBuffer += msg.data`, then
`slice(-1000)` when the length exceeds 2000. -/
def rollBuffer (buffer data : String) : String :=
  if (buffer ++ data).length > 2000 then
    ⟨(buffer ++ data).data.drop ((buffer ++ data).length - 1000)⟩
  else buffer ++ data

/-- The `case 'terminal_output'` branch of `ws.onmessage`: append the
chunk to the rolling buffer, truncate to the last 1000 characters when
the buffer exceeds 2000, and for chunks under 4096 characters run the
conflict test on the stripped and raw chunk and buffer.  On detection:
set the suppression flag, null out `onclose`, close the socket, rotate
the session id (`freshId` models `generateUUID()`), clear the buffer and
schedule the delayed reconnect; otherwise enqueue the chunk for
rendering. -/
def processOutputChunk (freshId : String) (st : ClientState) (data : String) :
    ClientState × List ClientEvent :=
  if st.disposed then (st, [])
  else
    let buf := rollBuffer st.outputBuffer data
    if data.length < 4096 ∧
        (conflictTest (stripAnsi data) ∨ conflictTest (stripAnsi buf) ∨
         conflictTest data ∨ conflictTest buf) then
      ({ st with handlingSessionConflict := true, oncloseAttached := false,
                 wsOpen := false, sessionId := freshId, outputBuffer := "" },
       [ClientEvent.conflictDetected, ClientEvent.sessionRotated freshId,
        ClientEvent.conflictReconnectScheduled])
    else
      ({ st with outputBuffer := buf }, [ClientEvent.enqueued data])

/-- The `ws.onclose` handler, reduced to its scheduling decision: returns
the updated state and whether an automatic reconnect was scheduled.
When `handlingSessionConflict` is set it returns immediately; otherwise,
with a known working directory and an undisposed terminal, it increments
the attempt counter and schedules a retry only while the counter is at
most 3. -/
def onCloseHandler (st : ClientState) (workDirKnown : Bool) :
    ClientState × Bool :=
  if st.handlingSessionConflict then (st, false)
  else if workDirKnown ∧ ¬ st.disposed then
    let attempts := st.reconnectAttempts + 1
    ({ st with reconnectAttempts := attempts }, attempts ≤ 3)
  else (st, false)

/-! ### Concrete states used by witnesses and counterexamples -/

def infoA : AgentInfo :=
  { name := some "Claude", type := some "claude", role := some "Dev",
    index := some 0 }

def infoB : AgentInfo :=
  { name := some "Gemini", type := some "gemini", role := some "QA",
    index := some 1 }

def mgr1 : Manager :=
  { sessions := [("a", 1)], agent_info := [("a", infoA)] }

def mgr2 : Manager :=
  { sessions := [("a", 1), ("b", 2)],
    agent_info := [("a", infoA), ("b", infoB)] }

/-- A client-terminal state as `connect()` leaves it: empty rolling
buffer, live socket, reconnect machinery idle. -/
def c4Init : ClientState :=
  { outputBuffer := "", sessionId := "old-session",
    handlingSessionConflict := false, oncloseAttached := true,
    wsOpen := true, disposed := false, reconnectAttempts := 0 }

def tmpA : String := "/tmp/ai_image_sid-5_aa.png"

/-- A running session owning one staged temp file. -/
def sess5 : TermSession :=
  { TermSession.create "sid-5" "/w" "claude" "General" with
      temp_files := [tmpA], running := true, hasReadTask := true,
      pty := some 3, ptyAlive := true }

def fs5 : List String := [tmpA, "/home/user/other.txt"]

def sess7 : TermSession := TermSession.create "s7" "/w" "claude" "QA"

def sess8 : TermSession :=
  TermSession.create "abcd1234-x" "/w" "claude" "General"

/-- A session whose agent kind (`shell`) has no attach-command
template. -/
def sessShell : TermSession := TermSession.create "sh-1" "/w" "shell" "General"

/-- The session identifier that exposes the `$`-anchor slip in
`_is_valid_uuid`: a well-formed v4 UUID followed by one newline. -/
def badSessionId : String := "12345678-1234-4123-8123-123456789abc\n"

/-- A 2500-character rolling buffer, for exercising the overflow
truncation. -/
def bigBuffer : String := ⟨List.replicate 2500 'a'⟩

def c4Big : ClientState := { c4Init with outputBuffer := bigBuffer }

/-! ## Dictionary lemmas -/

theorem dictGet_dictSet_self (d : List (String × α)) (k : String) (v : α) :
    dictGet (dictSet d k v) k = some v := by
  induction d with
  | nil => simp [dictSet, dictGet]
  | cons p rest ih =>
    by_cases hp : p.1 = k
    · simp [dictSet, hp, dictGet]
    · simpa [dictSet, hp, dictGet] using ih

theorem dictGet_dictSet_ne (d : List (String × α)) (k k' : String) (v : α)
    (h : k' ≠ k) : dictGet (dictSet d k v) k' = dictGet d k' := by
  induction d with
  | nil => simp [dictSet, dictGet, Ne.symm h]
  | cons p rest ih =>
    by_cases hp : p.1 = k
    · have hpk' : ¬ p.1 = k' := by rw [hp]; exact Ne.symm h
      simp [dictSet, hp, dictGet, hpk', Ne.symm h]
    · by_cases hp' : p.1 = k'
      · simp [dictSet, hp, dictGet, hp', h]
      · simpa [dictSet, hp, dictGet, hp'] using ih

theorem dictGet_dictDel_self (d : List (String × α)) (k : String) :
    dictGet (dictDel d k) k = none := by
  induction d with
  | nil => simp [dictDel, dictGet]
  | cons p rest ih =>
    by_cases hp : p.1 = k
    · simpa [dictDel, dictGet, hp] using ih
    · simpa [dictDel, dictGet, hp] using ih

theorem dictHas_eq_isSome (d : List (String × α)) (k : String) :
    dictHas d k = (dictGet d k).isSome := by
  induction d with
  | nil => simp [dictHas, dictGet]
  | cons p rest ih =>
    by_cases hp : p.1 = k
    · simp [dictHas, dictGet, hp]
    · simpa [dictHas, dictGet, hp] using ih

/-! ## Registry lemmas -/

theorem broadcastLoop_eq (entries : List (String × Nat)) (sender : String)
    (env : Envelope) (ok : Nat → Bool) :
    broadcastLoop entries sender env ok =
      (entries.filter (fun p => decide (p.1 ≠ sender) && ok p.2)).map
        (fun p => Effect.send p.1 p.2 env) := by
  induction entries with
  | nil => rfl
  | cons p rest ih =>
    obtain ⟨sid, ws⟩ := p
    by_cases hs : sid = sender
    · simp [broadcastLoop, hs, ih]
    · by_cases hok : ok ws
      · simp [broadcastLoop, hs, hok, ih]
      · simp [broadcastLoop, hs, hok, ih]

/-! ## Claim C1 — `SessionManager.send_direct` -/

/-- C1, counterexample.  The claim states that when the send to the
resolved target fails, `send_direct` unregisters that target and does not
raise.  In the registry `mgr1` (one session `"a"` at index 0), with a
send oracle that fails, `send_direct 0` raises out of the call
(`Except.error`): the send is not wrapped in `try`, and no unregistration
exists on this path. -/
theorem C1_counterexample :
    Manager.send_direct mgr1 0 "b" "hi" "" (fun _ => false) =
      Except.error () := by
  rfl

/-- C1, amended.  `send_direct` scans the metadata in insertion order for
the first entry whose `index` equals the target: if none matches it sends
nothing and returns `false`; if the first match has a non-empty id with a
registered transport and the send succeeds, it delivers exactly one
`inject_input` envelope to that transport and returns `true`; if that
send fails, the exception propagates to the caller and the registry is
left untouched (the operation never mutates it), so the target is not
unregistered. -/
theorem C1_send_direct_behaviour (m : Manager) (ti : Int)
    (sender msg ctx : String) (sendOk : Nat → Bool) :
    (findByIndex m.agent_info ti = none →
      m.send_direct ti sender msg ctx sendOk = Except.ok (false, [])) ∧
    (∀ sid ws, findByIndex m.agent_info ti = some sid → sid ≠ "" →
      dictGet m.sessions sid = some ws →
      (sendOk ws = true →
        m.send_direct ti sender msg ctx sendOk =
          Except.ok (true, [Effect.send sid ws (Envelope.injectInput
            (directMessage (m.directSenderName sender) (m.senderRole sender)
              msg ctx))])) ∧
      (sendOk ws = false →
        m.send_direct ti sender msg ctx sendOk = Except.error ())) := by
  constructor
  · intro hnone
    simp [Manager.send_direct, hnone]
  · intro sid ws hfind hsid hget
    have hhas : dictHas m.sessions sid = true := by
      rw [dictHas_eq_isSome, hget]; rfl
    constructor
    · intro hok
      simp [Manager.send_direct, hfind, hsid, hhas, hget, hok]
    · intro hfail
      simp [Manager.send_direct, hfind, hsid, hhas, hget, hfail]

/-- C1, witness: in `mgr2`, index 5 matches nobody (`false`, nothing
sent), while index 1 resolves to `"b"`/transport 2 and, with a
succeeding send, delivers exactly one `inject_input` envelope. -/
theorem C1_witness :
    Manager.send_direct mgr2 5 "a" "m" "c" (fun _ => true) =
        Except.ok (false, []) ∧
    Manager.send_direct mgr2 1 "a" "m" "c" (fun _ => true) =
      Except.ok (true, [Effect.send "b" 2 (Envelope.injectInput
        (directMessage "Claude" "Dev" "m" "c"))]) := by
  refine ⟨(C1_send_direct_behaviour mgr2 5 "a" "m" "c" (fun _ => true)).1
    (by rfl), ?_⟩
  have h := ((C1_send_direct_behaviour mgr2 1 "a" "m" "c"
    (fun _ => true)).2 "b" 2 (by rfl) (by decide) (by rfl)).1 (by rfl)
  simpa [mgr2, Manager.directSenderName, Manager.senderRole, infoA, dictGet]
    using h

/-! ## Claim C2 — `SessionManager.broadcast` and the registry -/

/-- C2, counterexample.  The claim states that every target whose send
failed during the broadcast pass is unregistered after the pass.  In
`mgr2` (sessions `"a"` ↦ transport 1 and `"b"` ↦ transport 2), broadcast
from `"a"` with transport 2 failing delivers nothing, yet returns the
registry unchanged: `"b"` — whose send failed — is still registered. -/
theorem C2_counterexample :
    (Manager.broadcast mgr2 "a" "x" (fun ws => ws == 1)).1 = mgr2 ∧
    (Manager.broadcast mgr2 "a" "x" (fun ws => ws == 1)).2 = [] ∧
    dictHas (Manager.broadcast mgr2 "a" "x" (fun ws => ws == 1)).1.sessions
      "b" = true := by
  refine ⟨rfl, by rfl, by rfl⟩

/-- C2, amended.  `broadcast` iterates the registered transports in
insertion order (the source iterates `self.sessions.items()` directly
with no snapshot copy), skips the sender, sends to every other target
whose transport accepts the envelope while swallowing each failure, and
returns with the registry unchanged: no dead-target bookkeeping exists
and failed targets stay registered. -/
theorem C2_broadcast_behaviour (m : Manager) (sender msg : String)
    (ok : Nat → Bool) :
    (m.broadcast sender msg ok).1 = m ∧
    (m.broadcast sender msg ok).2 =
      (m.sessions.filter (fun p => decide (p.1 ≠ sender) && ok p.2)).map
        (fun p => Effect.send p.1 p.2
          (Envelope.broadcastMessage (m.senderName sender) msg)) := by
  exact ⟨rfl, broadcastLoop_eq m.sessions sender
    (Envelope.broadcastMessage (m.senderName sender) msg) ok⟩

/-! ## Claim C3 — broadcast isolation guarantees -/

/-- C3: `broadcast(sender, m)` never delivers to the sender's own
registration, and a failing target neither raises (the operation is a
total function whose per-target send is guarded by `try/except: pass`)
nor prevents delivery to any other registered target whose own send
succeeds — the delivery of such a target is a member of the effect list
whatever the oracle answers elsewhere. -/
theorem C3_broadcast_isolation (m : Manager) (sender msg : String)
    (ok : Nat → Bool) :
    (∀ sid ws env,
      Effect.send sid ws env ∈ (m.broadcast sender msg ok).2 →
      sid ≠ sender) ∧
    (∀ sid ws, (sid, ws) ∈ m.sessions → sid ≠ sender → ok ws = true →
      Effect.send sid ws
          (Envelope.broadcastMessage (m.senderName sender) msg) ∈
        (m.broadcast sender msg ok).2) := by
  constructor
  · intro sid ws env hmem
    simp only [Manager.broadcast, broadcastLoop_eq, List.mem_map,
      List.mem_filter] at hmem
    obtain ⟨p, ⟨_, hcond⟩, heq⟩ := hmem
    cases heq
    simpa using (Bool.and_elim_left hcond)
  · intro sid ws hmem hne hok
    simp only [Manager.broadcast, broadcastLoop_eq, List.mem_map,
      List.mem_filter]
    exact ⟨(sid, ws), ⟨hmem, by simp [hne, hok]⟩, rfl⟩

/-- C3, witness: in `mgr2`, broadcasting from `"a"` with transport 1
failing and transport 2 succeeding still delivers to `"b"`, and every
delivered effect names a non-sender id. -/
theorem C3_witness :
    Effect.send "b" 2 (Envelope.broadcastMessage "Claude" "x") ∈
      (Manager.broadcast mgr2 "a" "x" (fun ws => ws == 2)).2 ∧
    ("b" : String) ≠ "a" := by
  constructor
  · have h := (C3_broadcast_isolation mgr2 "a" "x" (fun ws => ws == 2)).2
      "b" 2 (by decide) (by decide) (by rfl)
    simpa [mgr2, Manager.senderName, infoA, dictGet] using h
  · exact (C3_broadcast_isolation mgr2 "a" "x" (fun ws => ws == 2)).1
      "b" 2 (Envelope.broadcastMessage "Claude" "x")
      (by
        have h := (C3_broadcast_isolation mgr2 "a" "x" (fun ws => ws == 2)).2
          "b" 2 (by decide) (by decide) (by rfl)
        simpa [mgr2, Manager.senderName, infoA, dictGet] using h)

/-! ## Claim C9 — `SessionManager.register` -/

/-- C9, counterexample.  The claim states that registering over an
already-present id first attempts to close the previously registered
transport.  In `mgr1`, id `"a"` is registered with transport 1, yet
re-registering it with transport 2 produces no effect at all — in
particular no `Effect.close 1`: the source's `register` is two plain
dict assignments. -/
theorem C9_counterexample :
    dictGet mgr1.sessions "a" = some 1 ∧
    (Manager.register mgr1 "a" 2 infoB).2 = [] ∧
    dictGet (Manager.register mgr1 "a" 2 infoB).1.sessions "a" = some 2 := by
  exact ⟨rfl, rfl, rfl⟩

/-- C9, amended.  `register(id, transport, metadata)` overwrites the
entry without closing (or otherwise touching) the previously registered
transport: it performs no side effect, afterwards maps `id` to the new
transport and metadata, and leaves every other id's entries unchanged. -/
theorem C9_register_behaviour (m : Manager) (id : String) (ws : Nat)
    (info : AgentInfo) :
    (m.register id ws info).2 = [] ∧
    dictGet (m.register id ws info).1.sessions id = some ws ∧
    dictGet (m.register id ws info).1.agent_info id = some info ∧
    (∀ k, k ≠ id →
      dictGet (m.register id ws info).1.sessions k =
        dictGet m.sessions k ∧
      dictGet (m.register id ws info).1.agent_info k =
        dictGet m.agent_info k) := by
  refine ⟨rfl, dictGet_dictSet_self _ _ _, dictGet_dictSet_self _ _ _, ?_⟩
  intro k hk
  exact ⟨dictGet_dictSet_ne _ _ _ _ hk, dictGet_dictSet_ne _ _ _ _ hk⟩

/-- C9, witness: re-registering `"a"` in `mgr1` with transport 2 yields
no close effect, stores the new transport and metadata, and leaves the
absent id `"z"` absent. -/
theorem C9_witness :
    (Manager.register mgr1 "a" 2 infoB).2 = [] ∧
    dictGet (Manager.register mgr1 "a" 2 infoB).1.sessions "a" = some 2 ∧
    dictGet (Manager.register mgr1 "a" 2 infoB).1.sessions "z" = none := by
  have h := C9_register_behaviour mgr1 "a" 2 infoB
  exact ⟨h.1, h.2.1, by
    have := (h.2.2.2 "z" (by decide)).1
    simpa [mgr1, dictGet] using this⟩

/-! ## Rolling-buffer lemmas -/

theorem strLength_data (s : String) : s.length = s.data.length := rfl

theorem mk_data_length (l : List Char) : (String.mk l).length = l.length :=
  rfl

theorem mk_data (l : List Char) : (String.mk l).data = l := rfl

theorem rollBuffer_length (b d : String) : (rollBuffer b d).length ≤ 2000 := by
  unfold rollBuffer
  split
  · rename_i h
    rw [mk_data_length, List.length_drop]
    rw [strLength_data] at h ⊢
    omega
  · rename_i h
    omega

theorem rollBuffer_suffix (b d : String) :
    (rollBuffer b d).data <:+ (b ++ d).data := by
  unfold rollBuffer
  split
  · rw [mk_data]
    exact List.drop_suffix _ _
  · exact List.suffix_refl _

theorem rollBuffer_overflow (b d : String) (h : (b ++ d).length > 2000) :
    (rollBuffer b d).length ≤ 1000 := by
  unfold rollBuffer
  rw [if_pos h, mk_data_length, List.length_drop]
  rw [strLength_data] at h ⊢
  omega

/-! ## Claim C4 — cross-chunk conflict detection and recovery -/

/-- C4: with the chunks `"already "` and `"in use"` delivered separately,
the first delivery only accumulates into the rolling buffer, while the
second matches `/already\s+in\s+use/i` against the buffer: the session
identifier is rotated exactly once (one `sessionRotated` event across
both deliveries), the buffer is cleared, the suppression flag is set and
`onclose` is detached, so the onclose handler schedules no automatic
reconnect for this closure.  In general (for any undisposed state) the
rolling buffer is kept at ≤ 2000 characters, is always a suffix of the
accumulated output, and is cut to ≤ 1000 characters on overflow. -/
theorem C4_conflict_detection :
    (let r1 := processOutputChunk "fresh-1" c4Init "already "
     let r2 := processOutputChunk "fresh-2" r1.1 "in use"
     r1.2 = [ClientEvent.enqueued "already "] ∧
     r1.1.handlingSessionConflict = false ∧
     r1.1.sessionId = "old-session" ∧
     r1.1.outputBuffer = "already " ∧
     r2.2 = [ClientEvent.conflictDetected,
             ClientEvent.sessionRotated "fresh-2",
             ClientEvent.conflictReconnectScheduled] ∧
     (r1.2 ++ r2.2).countP (fun e =>
        match e with
        | ClientEvent.sessionRotated _ => true
        | _ => false) = 1 ∧
     r2.1.sessionId = "fresh-2" ∧
     r2.1.outputBuffer = "" ∧
     r2.1.handlingSessionConflict = true ∧
     r2.1.oncloseAttached = false ∧
     (onCloseHandler r2.1 true).2 = false) ∧
    (∀ fresh st data, st.disposed = false →
      (processOutputChunk fresh st data).1.outputBuffer.length ≤ 2000 ∧
      (processOutputChunk fresh st data).1.outputBuffer.data <:+
        (st.outputBuffer ++ data).data) ∧
    (∀ fresh st data, st.disposed = false →
      (st.outputBuffer ++ data).length > 2000 →
      (processOutputChunk fresh st data).1.outputBuffer.length ≤ 1000) := by
  refine ⟨by decide, ?_, ?_⟩
  · intro fresh st data hdisp
    unfold processOutputChunk
    rw [if_neg (by simp [hdisp])]
    dsimp only
    split
    · refine ⟨?_, ?_⟩
      · show ("" : String).length ≤ 2000
        decide
      · show ("" : String).data <:+ _
        simp
    · exact ⟨rollBuffer_length _ _, rollBuffer_suffix _ _⟩
  · intro fresh st data hdisp hover
    unfold processOutputChunk
    rw [if_neg (by simp [hdisp])]
    dsimp only
    split
    · show ("" : String).length ≤ 1000
      decide
    · exact rollBuffer_overflow _ _ hover

/-- C4, witness: a small chunk keeps the buffer within 2000 characters,
and a delivery on a 2500-character buffer triggers the overflow cut to
at most 1000. -/
theorem C4_witness :
    (processOutputChunk "f" c4Init "tail").1.outputBuffer.length ≤ 2000 ∧
    (processOutputChunk "f" c4Big "tail").1.outputBuffer.length ≤ 1000 :=
  ⟨(C4_conflict_detection.2.1 "f" c4Init "tail" rfl).1,
   C4_conflict_detection.2.2 "f" c4Big "tail" rfl (by
     show (bigBuffer ++ "tail").length > 2000
     rw [strLength_data, String.data_append, List.length_append]
     have hb : bigBuffer.data.length = 2500 := by
       show (List.replicate 2500 'a').length = 2500
       rw [List.length_replicate]
     omega)⟩

/-! ## Claim C5 — `TerminalSession.stop` cleanup and idempotence -/

/-- C5: `stop()` removes every owned temp file from the filesystem, emits
no envelope itself (in particular no `terminal_closed`: a cancelled read
task never reaches the code that sends it), and a second `stop()` leaves
the session state and filesystem unchanged, attempts no deletion (the
owned set was cleared before the first deletion pass), emits nothing,
and — being a total function — raises nothing. -/
theorem C5_stop_cleanup_idempotent (s : TermSession) (fs : List String) :
    (∀ p ∈ s.temp_files, p ∉ (s.stop fs).fs) ∧
    (s.stop fs).envelopes = [] ∧
    ((s.stop fs).session.stop (s.stop fs).fs).session = (s.stop fs).session ∧
    ((s.stop fs).session.stop (s.stop fs).fs).fs = (s.stop fs).fs ∧
    ((s.stop fs).session.stop (s.stop fs).fs).deleted = [] ∧
    ((s.stop fs).session.stop (s.stop fs).fs).envelopes = [] := by
  refine ⟨?_, rfl, ?_, ?_, ?_, rfl⟩
  · intro p hp hmem
    simp only [TermSession.stop, List.mem_filter] at hmem
    simp_all
  · simp [TermSession.stop, Bool.or_assoc, Bool.or_self]
  · simp [TermSession.stop]
  · simp [TermSession.stop]

/-- C5, witness: `sess5` owns `tmpA`; after `stop` the file is gone from
the filesystem `fs5`, and the immediate second `stop` deletes nothing. -/
theorem C5_witness :
    tmpA ∉ (sess5.stop fs5).fs ∧
    ((sess5.stop fs5).session.stop (sess5.stop fs5).fs).deleted = [] :=
  ⟨(C5_stop_cleanup_idempotent sess5 fs5).1 tmpA (by decide),
   (C5_stop_cleanup_idempotent sess5 fs5).2.2.2.2.1⟩

/-! ## Claim C6 — resume-flag UUID validation -/

/-- C6: the claim is the code's own stated intent ("Only add session ID
if it's valid UUID"; the spec adds "an invalid id must never be spliced
into the command"), and the documented cases hold — `"not-a-uuid"` gets
no resume flag and the process still spawns, a well-formed UUID gets the
flag.  But `_is_valid_uuid` matches with a Python regex anchored by `$`,
which also matches just before one trailing newline: the identifier
`"12345678-1234-4123-8123-123456789abc\n"` is not a valid v4 UUID, yet
the resume flag — newline included — is spliced into the assembled
command. -/
theorem C6_resume_validation_bug :
    uuidV4Strict badSessionId = false ∧
    is_valid_uuid badSessionId = true ∧
    buildCmd claudeConfig badSessionId none =
      "claude --dangerously-skip-permissions --session-id " ++ badSessionId ∧
    buildCmd claudeConfig "not-a-uuid" none =
      "claude --dangerously-skip-permissions" ∧
    ((TermSession.create "not-a-uuid" "/w" "claude" "General").start none
      true 42).ok = true ∧
    ((TermSession.create "not-a-uuid" "/w" "claude" "General").start none
      true 42).spawnedCmd = some "claude --dangerously-skip-permissions" ∧
    buildCmd claudeConfig "12345678-1234-4123-8123-123456789abc" none =
      "claude --dangerously-skip-permissions --session-id 12345678-1234-4123-8123-123456789abc" := by
  refine ⟨by decide, by decide, by decide, by decide, rfl, by decide,
    by decide⟩

/-! ## Claim C7 — persona-prompt deny-list -/

/-- C7: for any session whose agent kind has a persona-flag template, a
role prompt containing a deny-listed character (backtick, `$`, `|`, `;`,
`&`, `<`, `>`, NUL) is never substituted into the assembled command —
the command equals the one built with no prompt at all — and the process
still spawns; a non-empty prompt free of those characters is appended
via the persona flag (escaped for quoting). -/
theorem C7_persona_denylist (s : TermSession) (prompt : String) (pid : Nat)
    (hspc : optTruthy s.config.system_prompt_cmd = true) :
    (containsDangerous prompt = true →
      (s.start (some prompt) true pid).ok = true ∧
      (s.start (some prompt) true pid).spawnedCmd =
        some (buildCmd s.config s.session_id none)) ∧
    (containsDangerous prompt = false → prompt ≠ "" →
      (s.start (some prompt) true pid).spawnedCmd =
        some (buildCmd s.config s.session_id none ++ " " ++
          s.config.system_prompt_cmd.getD "" ++ " \"" ++
          escapePrompt prompt ++ "\"")) := by
  have hnone : optTruthy (none : Option String) = false := rfl
  constructor
  · intro hd
    have hne : prompt ≠ "" := by
      intro he
      rw [he] at hd
      simp [containsDangerous] at hd
    have hps : optTruthy (some prompt) = true := by simp [optTruthy, hne]
    refine ⟨rfl, ?_⟩
    simp [TermSession.start, buildCmd, hspc, hps, hd, hnone]
  · intro hd hne
    have hps : optTruthy (some prompt) = true := by simp [optTruthy, hne]
    simp [TermSession.start, buildCmd, hspc, hps, hd, hnone]

/-- C7, witness: on the claude-configured session `sess7`, a prompt with
a backtick is dropped (the spawned command equals the no-persona one)
while a clean prompt is appended through `--append-system-prompt`. -/
theorem C7_witness :
    (sess7.start (some "do `rm -rf`") true 7).spawnedCmd =
      some (buildCmd sess7.config sess7.session_id none) ∧
    (sess7.start (some "be thorough") true 7).spawnedCmd =
      some (buildCmd sess7.config sess7.session_id none ++ " " ++
        sess7.config.system_prompt_cmd.getD "" ++ " \"" ++
        escapePrompt "be thorough" ++ "\"") :=
  ⟨((C7_persona_denylist sess7 "do `rm -rf`" 7 (by decide)).1 (by decide)).2,
   (C7_persona_denylist sess7 "be thorough" 7 (by decide)).2 (by decide)
     (by decide)⟩

/-! ## Claim C8 — binary-attachment validation -/

/-- C8: every validation failure of `send_image` sends an error envelope
and returns `None` without writing a file (and, the operation being a
total function, without raising): unsupported agent kind, encoded
payload over 70 MB, malformed base64, and decoded payload over 50 MB —
the last rejected after decoding but before any write.  In the accepted
case, a filename whose suffix is not in the png/jpg/jpeg/gif/webp
allow-list produces a file written under the substituted default
extension `.png`. -/
theorem C8_send_image_validation (s : TermSession) (fs : List String)
    (decode : String → Option Nat) (uid tdir idata fn : String) :
    (optTruthy s.config.add_image_cmd = false →
      (s.send_image fs decode uid tdir idata fn).result = none ∧
      (s.send_image fs decode uid tdir idata fn).written = [] ∧
      (s.send_image fs decode uid tdir idata fn).envelopes =
        [Envelope.error (s.config.name ++ " does not support images")]) ∧
    (optTruthy s.config.add_image_cmd = true →
      ((payloadBody idata).length > 70 * 1024 * 1024 →
        (s.send_image fs decode uid tdir idata fn).result = none ∧
        (s.send_image fs decode uid tdir idata fn).written = [] ∧
        (s.send_image fs decode uid tdir idata fn).envelopes =
          [Envelope.error "Image data too large (max ~50MB)"]) ∧
      ((payloadBody idata).length ≤ 70 * 1024 * 1024 →
        decode (payloadBody idata) = none →
        (s.send_image fs decode uid tdir idata fn).result = none ∧
        (s.send_image fs decode uid tdir idata fn).written = [] ∧
        (s.send_image fs decode uid tdir idata fn).envelopes =
          [Envelope.error "Invalid image data"]) ∧
      (∀ n, (payloadBody idata).length ≤ 70 * 1024 * 1024 →
        decode (payloadBody idata) = some n → n > 50 * 1024 * 1024 →
        (s.send_image fs decode uid tdir idata fn).result = none ∧
        (s.send_image fs decode uid tdir idata fn).written = [] ∧
        (s.send_image fs decode uid tdir idata fn).envelopes =
          [Envelope.error "Image too large (max 50MB)"]) ∧
      (∀ n, (payloadBody idata).length ≤ 70 * 1024 * 1024 →
        decode (payloadBody idata) = some n → n ≤ 50 * 1024 * 1024 →
        strToLower (pySuffix fn) ∉ allowedExts →
        (s.send_image fs decode uid tdir idata fn).written =
          [tdir ++ "/ai_image_" ++ pyTake s.session_id 8 ++ "_" ++ uid
            ++ ".png"] ∧
        (s.send_image fs decode uid tdir idata fn).result =
          some (tdir ++ "/ai_image_" ++ pyTake s.session_id 8 ++ "_"
            ++ uid ++ ".png"))) := by
  constructor
  · intro hadd
    simp [TermSession.send_image, hadd]
  · intro hadd
    refine ⟨?_, ?_, ?_, ?_⟩
    · intro hlen
      simp [TermSession.send_image, hadd, hlen]
    · intro hlen hdec
      have hlen' : ¬ ((payloadBody idata).length > 70 * 1024 * 1024) := by
        omega
      simp [TermSession.send_image, hadd, hlen', hdec]
    · intro n hlen hdec hn
      have hlen' : ¬ ((payloadBody idata).length > 70 * 1024 * 1024) := by
        omega
      simp [TermSession.send_image, hadd, hlen', hdec, hn]
    · intro n hlen hdec hn hext
      have hlen' : ¬ ((payloadBody idata).length > 70 * 1024 * 1024) := by
        omega
      have hn' : ¬ (n > 50 * 1024 * 1024) := by omega
      by_cases hsuf : pySuffix fn = ""
      · have hpng : strToLower ".png" ∈ allowedExts := by decide
        simp [TermSession.send_image, hadd, hlen', hdec, hn', hsuf, hpng]
      · simp [TermSession.send_image, hadd, hlen', hdec, hn', hsuf, hext]

/-- C8, witness: on the claude-configured session `sess8`, a 50 MB + 1
decoded payload is rejected with nothing written; a malformed payload is
rejected; the shell-configured session rejects attachments outright; and
a `.exe` filename is written under `.png`. -/
theorem C8_witness :
    (sess8.send_image [] (fun _ => some (50 * 1024 * 1024 + 1)) "u1" "/tmp"
        "zz" "s.png").written = [] ∧
    (sess8.send_image [] (fun _ => some (50 * 1024 * 1024 + 1)) "u1" "/tmp"
        "zz" "s.png").envelopes = [Envelope.error "Image too large (max 50MB)"] ∧
    (sess8.send_image [] (fun _ => none) "u1" "/tmp" "zz" "s.png").result =
      none ∧
    (sessShell.send_image [] (fun _ => some 5) "u1" "/tmp" "zz"
        "s.png").envelopes =
      [Envelope.error "Shell does not support images"] ∧
    (sess8.send_image [] (fun _ => some 5) "u1" "/tmp" "zz"
        "shot.exe").written = ["/tmp/ai_image_abcd1234_u1.png"] := by
  have hbig := ((C8_send_image_validation sess8 []
    (fun _ => some (50 * 1024 * 1024 + 1)) "u1" "/tmp" "zz" "s.png").2
    (by decide)).2.2.1 (50 * 1024 * 1024 + 1) (by decide) rfl (by omega)
  have hbad := ((C8_send_image_validation sess8 [] (fun _ => none) "u1"
    "/tmp" "zz" "s.png").2 (by decide)).2.1 (by decide) rfl
  have hshell := (C8_send_image_validation sessShell [] (fun _ => some 5)
    "u1" "/tmp" "zz" "s.png").1 (by decide)
  have hext := ((C8_send_image_validation sess8 [] (fun _ => some 5) "u1"
    "/tmp" "zz" "shot.exe").2 (by decide)).2.2.2 5 (by decide) rfl
    (by omega) (by decide)
  refine ⟨hbig.2.1, hbig.2.2, hbad.1, ?_, ?_⟩
  · have h := hshell.2.2
    have hn : sessShell.config.name = "Shell" := by decide
    rw [hn] at h
    exact h
  · have h := hext.1
    have hs : pyTake sess8.session_id 8 = "abcd1234" := by decide
    rw [hs] at h
    exact h

/-! ## Claim C10 — websocket handler teardown -/

/-- C10: for a connection whose session start succeeded, however the
receive loop ends, the handler's `finally` block stops the session and
deletes its identifier from `terminal_sessions`: afterwards the map has
no entry under that identifier and the handled session is stopped (its
`_running` flag cleared and owned temp files released, stated via the
projection of the final session). -/
theorem C10_handler_teardown (sessions : List (String × TermSession))
    (fs : List String) (sid wd atype role : String) (pid : Nat)
    (decode : String → Option Nat) (uid tdir : String)
    (msgs : List ClientMsg) :
    dictGet (handle_terminal_websocket sessions fs sid wd atype role true
      pid decode uid tdir msgs).sessions sid = none ∧
    (handle_terminal_websocket sessions fs sid wd atype role true pid
      decode uid tdir msgs).finalSession.map
        (fun f => (f.running, f.temp_files)) = some (false, []) := by
  constructor
  · simp [handle_terminal_websocket, TermSession.start, dictGet_dictDel_self]
  · simp [handle_terminal_websocket, TermSession.start, TermSession.stop]

end AgentTerminal
